import Mathlib

/-!
Verification of the MLOps Cats-vs-Dogs deployment and monitoring pipeline.

Shallow embedding of the Python sources:
  - `src/model_monitor.py`  (ModelPerformanceMonitor)
  - `src/deploy.py`         (DeploymentManager)
  - `src/smoke_tests.py`    (SmokeTest)
  - `src/post_deployment_eval.py` (PostDeploymentEvaluator)

External effects (HTTP responses, shell-command exit statuses, wall-clock
time) are modelled as explicit parameters (oracles); machine reals are
modelled as rationals; raised Python exceptions are modelled with `Except`.
-/

namespace MLOps

/-! ## Data model: prediction records (model_monitor.py) -/

/-- One entry of the predictions log, as built by
`ModelPerformanceMonitor.log_prediction` (model_monitor.py lines 55-62).
Timestamps are abstracted to naturals. -/
structure PredictionEntry where
  timestamp : ℕ
  image_path : String
  predicted_class : String
  actual_class : Option String
  confidence : Option ℚ
  correct : Option Bool
  deriving Repr, DecidableEq

/-- Python truthiness of an optional string (`if actual_class` /
`p.get('actual_class')`): `None` and the empty string are falsy. -/
def truthyStr : Option String → Bool
  | none => false
  | some s => !(s == "")

/-- The persisted log document written by `_save_logs`
(model_monitor.py lines 42-46): last-updated timestamp, total count,
full ordered list of records. -/
structure LogDocument where
  last_updated : ℕ
  total_predictions : ℕ
  predictions : List PredictionEntry
  deriving Repr, DecidableEq

/-- `_save_logs` (model_monitor.py lines 39-50): rewrites the whole
document from the in-memory log. -/
def save_logs (now : ℕ) (log : List PredictionEntry) : LogDocument :=
  { last_updated := now
    total_predictions := log.length
    predictions := log }

/-- `log_prediction` (model_monitor.py lines 52-67): builds the entry
(`correct` is `predicted == actual` when the actual label is truthy,
else undefined), appends it, saves the document, then logs
`f"... confidence: \x7bconfidence:.2f\x7d"`, which raises `TypeError`
when `confidence` is `None`.  Returns the new in-memory log, the
document written to disk, and the normal/raised outcome of the call. -/
def log_prediction (log : List PredictionEntry) (now : ℕ)
    (image_path predicted_class : String)
    (actual_class : Option String := none) (confidence : Option ℚ := none) :
    List PredictionEntry × LogDocument × Except String Unit :=
  let entry : PredictionEntry :=
    { timestamp := now
      image_path := image_path
      predicted_class := predicted_class
      actual_class := actual_class
      confidence := confidence
      correct :=
        if truthyStr actual_class then some (actual_class == some predicted_class)
        else none }
  let newLog := log ++ [entry]
  let doc := save_logs now newLog
  match confidence with
  | none => (newLog, doc, Except.error "TypeError: unsupported format string passed to NoneType.__format__")
  | some _ => (newLog, doc, Except.ok ())

/-! ## Performance metrics (model_monitor.py, get_performance_metrics) -/

/-- The dictionary returned by `get_performance_metrics`
(model_monitor.py lines 164-176).  Accuracies are on the 0-100 scale, as
in the source.  Confidence statistics are `Option`s because pandas
`mean`/`min`/`max` skip missing values and are undefined when every
value is missing. -/
structure PerfMetrics where
  overall_accuracy : ℚ
  total_predictions : ℕ
  recent_accuracy_24h : ℚ
  recent_predictions_24h : ℕ
  average_confidence : Option ℚ
  confidence_min : Option ℚ
  confidence_max : Option ℚ
  class_accuracy : List (String × ℚ)
  deriving Repr, DecidableEq

/-- Records whose `actual_class` is truthy (model_monitor.py line 128). -/
def labeledOf (log : List PredictionEntry) : List PredictionEntry :=
  log.filter (fun p => truthyStr p.actual_class)

/-- Number of records whose `correct` field is truthy (`True`). -/
def correctCount (l : List PredictionEntry) : ℕ :=
  (l.filter (fun p => p.correct == some true)).length

/-- `df['actual_class'].unique()`: distinct values in order of first
appearance (model_monitor.py line 147). -/
def firstUniques (xs : List String) : List String :=
  xs.foldl (fun acc s => if s ∈ acc then acc else acc ++ [s]) []

/-- Fold-based minimum over a list of rationals (`df.min()` over the
present values; `none` when no value is present). -/
def listMin (l : List ℚ) : Option ℚ :=
  l.foldl (fun acc x => match acc with
    | none => some x
    | some m => some (min m x)) none

/-- Fold-based maximum over a list of rationals. -/
def listMax (l : List ℚ) : Option ℚ :=
  l.foldl (fun acc x => match acc with
    | none => some x
    | some m => some (max m x)) none

/-- `get_performance_metrics` (model_monitor.py lines 122-176).
`recentCutoff` abstracts `now - 24h`: a record is recent iff its
timestamp is strictly greater (line 157).  Returns `none` (the empty
dict) when the log is empty or no record carries a truthy label. -/
def get_performance_metrics (log : List PredictionEntry) (recentCutoff : ℕ) :
    Option PerfMetrics :=
  if log = [] then none
  else
    let labeled := labeledOf log
    if labeled = [] then none
    else
      let total := labeled.length
      let accuracy : ℚ := ((correctCount labeled : ℚ) / (total : ℚ)) * 100
      let confs := labeled.filterMap (fun p => p.confidence)
      let avg : Option ℚ :=
        if confs = [] then none else some (confs.sum / (confs.length : ℚ))
      let classes := firstUniques (labeled.map (fun p => p.actual_class.getD ""))
      let class_acc := classes.map (fun c =>
        let cls := labeled.filter (fun p => p.actual_class.getD "" == c)
        (c, ((correctCount cls : ℚ) / (cls.length : ℚ)) * 100))
      let recents := labeled.filter (fun p => recentCutoff < p.timestamp)
      let recent_accuracy : ℚ :=
        if recents = [] then 0
        else ((correctCount recents : ℚ) / (recents.length : ℚ)) * 100
      some
        { overall_accuracy := accuracy
          total_predictions := total
          recent_accuracy_24h := recent_accuracy
          recent_predictions_24h := recents.length
          average_confidence := avg
          confidence_min := listMin confs
          confidence_max := listMax confs
          class_accuracy := class_acc }

/-- `check_model_drift` (model_monitor.py lines 215-234): empty metrics
give `false`; a zero recent *accuracy* gives `false` (the source tests
`recent_acc == 0`, commented `# No recent data`); otherwise drift is
`overall - recent` and the result is `drift > threshold`. -/
def check_model_drift (log : List PredictionEntry) (recentCutoff : ℕ)
    (threshold : ℚ := 5) : Bool :=
  match get_performance_metrics log recentCutoff with
  | none => false
  | some m =>
    if m.recent_accuracy_24h = 0 then false
    else decide (m.overall_accuracy - m.recent_accuracy_24h > threshold)

/-! ## Smoke tests (smoke_tests.py) -/

/-- One entry of `self.test_results` (smoke_tests.py): the source uses
the literal strings `"PASS"`, `"FAIL"`, `"SKIP"` as statuses. -/
structure ProbeResult where
  name : String
  status : String
  message : String
  deriving Repr, DecidableEq

/-- Response observed by the health probe: HTTP status code plus the two
body fields the probe reads (`status == "healthy"`, `model_loaded`
truthy).  `none` models a raised request exception (unreachable). -/
structure HealthResponse where
  code : ℕ
  statusHealthy : Bool
  modelLoaded : Bool
  deriving Repr, DecidableEq

/-- Response observed by the prediction probe: HTTP status code, whether
both `predicted_class` and `confidence` fields are present, and the
confidence value. -/
structure PredResponse where
  code : ℕ
  hasFields : Bool
  confidence : ℚ
  deriving Repr, DecidableEq

/-- Response observed by the metrics probe: HTTP status code and whether
the body contains the `inference_requests_total` token. -/
structure MetricsResponse where
  code : ℕ
  hasToken : Bool
  deriving Repr, DecidableEq

/-- `test_health_endpoint` (smoke_tests.py lines 18-35). -/
def test_health_endpoint (r : Option HealthResponse) : ProbeResult :=
  match r with
  | none => { name := "Health Check", status := "FAIL", message := "exception" }
  | some resp =>
    if resp.code == 200 then
      if resp.statusHealthy && resp.modelLoaded then
        { name := "Health Check", status := "PASS", message := "Service is healthy" }
      else
        { name := "Health Check", status := "FAIL", message := "Invalid response" }
    else
      { name := "Health Check", status := "FAIL", message := "HTTP error" }

/-- `test_prediction_endpoint` (smoke_tests.py lines 37-67). -/
def test_prediction_endpoint (r : Option PredResponse) : ProbeResult :=
  match r with
  | none => { name := "Prediction", status := "FAIL", message := "exception" }
  | some resp =>
    if resp.code == 200 then
      if resp.hasFields then
        if resp.confidence > 0 then
          { name := "Prediction", status := "PASS", message := "Prediction works" }
        else
          { name := "Prediction", status := "FAIL", message := "Zero confidence" }
      else
        { name := "Prediction", status := "FAIL", message := "Invalid response format" }
    else
      { name := "Prediction", status := "FAIL", message := "HTTP error" }

/-- `test_metrics_endpoint` (smoke_tests.py lines 69-81). -/
def test_metrics_endpoint (r : Option MetricsResponse) : ProbeResult :=
  match r with
  | none => { name := "Metrics", status := "FAIL", message := "exception" }
  | some resp =>
    if resp.code == 200 && resp.hasToken then
      { name := "Metrics", status := "PASS", message := "Metrics endpoint working" }
    else
      { name := "Metrics", status := "FAIL", message := "Metrics not available" }

/-- The fixed auxiliary-services list (smoke_tests.py lines 85-89). -/
def monitoring_services : List (String × String) :=
  [("Grafana", "http://localhost:3000"),
   ("Prometheus", "http://localhost:9090"),
   ("MLflow", "http://localhost:5000")]

/-- Result for one auxiliary service in `test_monitoring_services`
(smoke_tests.py lines 92-106): 200 gives PASS, any other status FAIL;
a raised exception (`none`) gives SKIP for MLflow and FAIL otherwise. -/
def monitoring_probe (service_name : String) (r : Option ℕ) : ProbeResult :=
  match r with
  | some code =>
    if code == 200 then
      { name := service_name, status := "PASS", message := "Service accessible" }
    else
      { name := service_name, status := "FAIL", message := "HTTP error" }
  | none =>
    if service_name == "MLflow" then
      { name := service_name, status := "SKIP", message := "Service not running (optional)" }
    else
      { name := service_name, status := "FAIL", message := "exception" }

/-- `test_monitoring_services` (smoke_tests.py lines 83-108): probe each
service of the fixed list; the oracle `web` maps a URL to the observed
HTTP status, `none` meaning unreachable.  Also returns the `all_pass`
flag (set to false by every FAIL appended). -/
def test_monitoring_services (web : String → Option ℕ) : List ProbeResult × Bool :=
  let results := monitoring_services.map (fun su => monitoring_probe su.1 (web su.2))
  (results, results.all (fun r => !(r.status == "FAIL")))

/-- The rule of spec section 4.4 item 4, stated from the claim's words:
Pass on 200, Fail on any other status; unreachability of the optional
service yields Skip, of a required one Fail. -/
def auxStatusSpec (isOptional : Bool) : Option ℕ → String
  | some code => if code == 200 then "PASS" else "FAIL"
  | none => if isOptional then "SKIP" else "FAIL"

/-- External observations consumed by one `run_all_tests` run. -/
structure SuiteInputs where
  health : Option HealthResponse
  pred : Option PredResponse
  metrics : Option MetricsResponse
  web : String → Option ℕ

/-- The ordered result list accumulated by `run_all_tests`
(smoke_tests.py lines 135-138): health, prediction, metrics, then the
auxiliary-service results. -/
def suite_results (inp : SuiteInputs) : List ProbeResult :=
  test_health_endpoint inp.health :: test_prediction_endpoint inp.pred ::
    test_metrics_endpoint inp.metrics :: (test_monitoring_services inp.web).1

/-- One step of the counting loop of `run_all_tests`
(smoke_tests.py lines 149-157): a status that is neither PASS nor FAIL
counts as skipped. -/
def suite_step (acc : ℕ × ℕ × ℕ) (r : ProbeResult) : ℕ × ℕ × ℕ :=
  if r.status == "PASS" then (acc.1 + 1, acc.2.1, acc.2.2)
  else if r.status == "FAIL" then (acc.1, acc.2.1 + 1, acc.2.2)
  else (acc.1, acc.2.1, acc.2.2 + 1)

/-- The counting loop of `run_all_tests` (smoke_tests.py lines 144-157):
(passed, failed, skipped). -/
def suite_counts (rs : List ProbeResult) : ℕ × ℕ × ℕ :=
  rs.foldl suite_step (0, 0, 0)

/-- The aggregation of `run_all_tests` (smoke_tests.py lines 162-168):
success iff the failed counter is zero. -/
def suite_verdict (rs : List ProbeResult) : Bool :=
  (suite_counts rs).2.1 == 0

/-- `run_all_tests` (smoke_tests.py lines 125-168): runs the four probes
and returns the aggregated verdict. -/
def run_all_tests (inp : SuiteInputs) : Bool :=
  suite_verdict (suite_results inp)

/-! ## Deployment (deploy.py) -/

/-- `run_command` outcomes are abstracted by an oracle from command
strings to success booleans (deploy.py lines 20-35: nonzero exit or a
raised exception both yield `False`). -/
def CommandOracle : Type := String → Bool

/-- The command loop shared by `deploy_docker_compose` (deploy.py lines
47-49) and `deploy_kubernetes` (lines 63-65): run each command in order,
return `False` at the first failure without running the rest.  Returns
the ordered trace of commands actually executed plus the outcome. -/
def run_commands (runner : CommandOracle) : List String → List String × Bool
  | [] => ([], true)
  | c :: rest =>
    if runner c then
      let t := run_commands runner rest
      (c :: t.1, t.2)
    else ([c], false)

/-- The Docker Compose plan (deploy.py lines 41-45). -/
def docker_commands : List String :=
  ["docker-compose down", "docker-compose build --no-cache", "docker-compose up -d"]

/-- The Kubernetes plan (deploy.py lines 57-61). -/
def k8s_commands : List String :=
  ["kubectl apply -f k8s/", "kubectl rollout status deployment/cats-dogs-inference",
   "kubectl get services"]

/-- `deploy_docker_compose` (deploy.py lines 37-51), with the executed
trace made explicit. -/
def deploy_docker_compose (runner : CommandOracle) : List String × Bool :=
  run_commands runner docker_commands

/-- `deploy_kubernetes` (deploy.py lines 53-67), with the executed trace
made explicit. -/
def deploy_kubernetes (runner : CommandOracle) : List String × Bool :=
  run_commands runner k8s_commands

/-- The polling loop of `wait_for_deployment` (deploy.py lines 73-83):
`poll i` is the response to the `i`-th health request (`none` for a
raised exception, which is swallowed).  A poll is treated as healthy iff
the status code is 200 — the body is never inspected.  Returns the
result together with the number of polls performed. -/
def wait_loop (poll : ℕ → Option HealthResponse) : ℕ → ℕ → Bool × ℕ
  | _, 0 => (false, 0)
  | i, fuel + 1 =>
    match poll i with
    | some resp =>
      if resp.code == 200 then (true, 1)
      else
        let t := wait_loop poll (i + 1) fuel
        (t.1, t.2 + 1)
    | none =>
      let t := wait_loop poll (i + 1) fuel
      (t.1, t.2 + 1)

/-- `wait_for_deployment` (deploy.py lines 69-86): iterates over
`range(max_wait // 10)` attempts. -/
def wait_for_deployment (max_wait : ℕ) (poll : ℕ → Option HealthResponse) :
    Bool × ℕ :=
  wait_loop poll 0 (max_wait / 10)

/-- The healthy-poll condition actually tested by the source
(deploy.py line 76): status code 200, body ignored. -/
def codeHealthy (r : Option HealthResponse) : Bool :=
  match r with
  | none => false
  | some resp => resp.code == 200

/-- The healthy-poll condition in the spec's words (section 4.2):
success status AND a body asserting the ready/loaded condition. -/
def specHealthy (r : Option HealthResponse) : Bool :=
  match r with
  | none => false
  | some resp => resp.code == 200 && resp.statusHealthy && resp.modelLoaded

/-- `deploy` (deploy.py lines 104-129): provisioning commands of the
chosen plan in order, abort on first failure; then the health gate; then
(optionally) the smoke suite.  The returned trace lists every shell
command `deploy` executed via `run_command`. -/
def deploy (deployment_type : String) (runner : CommandOracle)
    (poll : ℕ → Option HealthResponse) (suite : SuiteInputs)
    (run_tests : Bool := true) : List String × Bool :=
  if deployment_type == "docker" then
    let t := deploy_docker_compose runner
    if !t.2 then (t.1, false)
    else if !(wait_for_deployment 300 poll).1 then (t.1, false)
    else if run_tests && !(run_all_tests suite) then (t.1, false)
    else (t.1, true)
  else if deployment_type == "k8s" then
    let t := deploy_kubernetes runner
    if !t.2 then (t.1, false)
    else if !(wait_for_deployment 300 poll).1 then (t.1, false)
    else if run_tests && !(run_all_tests suite) then (t.1, false)
    else (t.1, true)
  else ([], false)

/-- `rollback` (deploy.py lines 131-140): the commands it executes via
`run_command` — exactly the plan's teardown command. -/
def rollback (deployment_type : String) : List String :=
  if deployment_type == "docker" then ["docker-compose down"]
  else if deployment_type == "k8s" then
    ["kubectl rollout undo deployment/cats-dogs-inference"]
  else []

/-! ## Post-deployment evaluation (post_deployment_eval.py) -/

/-- One entry of `predict_batch`'s output (post_deployment_eval.py
lines 65-70). -/
structure EvalPrediction where
  image_path : String
  predicted_class : String
  confidence : ℚ
  probabilities : List ℚ
  deriving Repr, DecidableEq

/-- The dictionary returned by `evaluate_performance`
(post_deployment_eval.py lines 111-123).  Accuracies here are on the 0-1
scale, as in the source. -/
structure EvalSummary where
  overall_accuracy : ℚ
  average_confidence : ℚ
  total_predictions : ℕ
  correct_predictions : ℕ
  cat_accuracy : ℚ
  dog_accuracy : ℚ
  cat_correct : ℕ
  dog_correct : ℕ
  cat_total : ℕ
  dog_total : ℕ
  timestamp : ℕ
  deriving Repr, DecidableEq

/-- `evaluate_performance` (post_deployment_eval.py lines 79-123):
raises `ValueError` when the prediction and label counts differ,
otherwise computes the summary. -/
def evaluate_performance (predictions : List EvalPrediction)
    (true_labels : List String) (now : ℕ) : Except String EvalSummary :=
  if predictions.length ≠ true_labels.length then
    Except.error "Predictions and true labels length mismatch"
  else
    let total := predictions.length
    let pairs := predictions.zip true_labels
    let correct := (pairs.filter (fun pt => pt.1.predicted_class == pt.2)).length
    let confidences := predictions.map (fun p => p.confidence)
    let accuracy : ℚ := if total > 0 then (correct : ℚ) / (total : ℚ) else 0
    let avg_confidence : ℚ :=
      if confidences ≠ [] then confidences.sum / (confidences.length : ℚ) else 0
    let cat_correct := (pairs.filter
      (fun pt => pt.1.predicted_class == "cat" && pt.2 == "cat")).length
    let dog_correct := (pairs.filter
      (fun pt => pt.1.predicted_class == "dog" && pt.2 == "dog")).length
    let cat_total := (true_labels.filter (fun t => t == "cat")).length
    let dog_total := (true_labels.filter (fun t => t == "dog")).length
    Except.ok
      { overall_accuracy := accuracy
        average_confidence := avg_confidence
        total_predictions := total
        correct_predictions := correct
        cat_accuracy := if cat_total > 0 then (cat_correct : ℚ) / (cat_total : ℚ) else 0
        dog_accuracy := if dog_total > 0 then (dog_correct : ℚ) / (dog_total : ℚ) else 0
        cat_correct := cat_correct
        dog_correct := dog_correct
        cat_total := cat_total
        dog_total := dog_total
        timestamp := now }

/-- Outcome of `run_evaluation` (post_deployment_eval.py lines 131-163):
no test images, a propagated exception, or a summary together with
whether it was persisted by `save_results`. -/
inductive RunOutcome where
  | noImages : RunOutcome
  | raised : String → RunOutcome
  | completed : EvalSummary → Bool → RunOutcome
  deriving Repr, DecidableEq

/-- `run_evaluation` (post_deployment_eval.py lines 131-163): the loaded
image paths / labels and the predictions obtained from the API are
explicit inputs; an error from `evaluate_performance` propagates before
any call to `save_results`. -/
def run_evaluation (image_paths : List String) (true_labels : List String)
    (predictions : List EvalPrediction) (now : ℕ)
    (save_to_file : Bool := true) : RunOutcome :=
  if image_paths = [] then RunOutcome.noImages
  else
    match evaluate_performance predictions true_labels now with
    | Except.error e => RunOutcome.raised e
    | Except.ok s => RunOutcome.completed s save_to_file

/-! ## Concrete inputs used in evaluations -/

/-- An old (timestamp 0) correct labeled record. -/
def oldEntry : PredictionEntry :=
  { timestamp := 0, image_path := "old.jpg", predicted_class := "cat",
    actual_class := some "cat", confidence := some (9/10), correct := some true }

/-- A recent (timestamp 100) incorrect labeled record. -/
def newEntry : PredictionEntry :=
  { timestamp := 100, image_path := "new.jpg", predicted_class := "dog",
    actual_class := some "cat", confidence := some (8/10), correct := some false }

/-- A log with one old correct labeled record and one recent incorrect
labeled record (recent-window cutoff 50 puts only `newEntry` in the
window). -/
def driftLog : List PredictionEntry := [oldEntry, newEntry]

/-- Worked-example entry (predicted cat, true cat, confidence 0.9). -/
def exEntry1 : PredictionEntry :=
  { timestamp := 100, image_path := "c1.jpg", predicted_class := "cat",
    actual_class := some "cat", confidence := some (9/10), correct := some true }

/-- Worked-example entry (predicted dog, true cat, confidence 0.8). -/
def exEntry2 : PredictionEntry :=
  { timestamp := 100, image_path := "d1.jpg", predicted_class := "dog",
    actual_class := some "cat", confidence := some (8/10), correct := some false }

/-- Worked-example entry (predicted dog, true dog, confidence 0.7). -/
def exEntry3 : PredictionEntry :=
  { timestamp := 100, image_path := "d2.jpg", predicted_class := "dog",
    actual_class := some "dog", confidence := some (7/10), correct := some true }

/-- The spec's worked example as monitor log entries:
(cat,cat,0.9), (dog,cat,0.8), (dog,dog,0.7). -/
def exampleLog : List PredictionEntry := [exEntry1, exEntry2, exEntry3]

/-- The spec's worked example as evaluator predictions. -/
def examplePreds : List EvalPrediction :=
  [{ image_path := "c1.jpg", predicted_class := "cat", confidence := 9/10, probabilities := [] },
   { image_path := "d1.jpg", predicted_class := "dog", confidence := 8/10, probabilities := [] },
   { image_path := "d2.jpg", predicted_class := "dog", confidence := 7/10, probabilities := [] }]

/-- The spec's worked example true labels. -/
def exampleLabels : List String := ["cat", "cat", "dog"]

/-- A health endpoint that always answers HTTP 200 with a body that does
NOT assert the ready/loaded condition. -/
def bodyNotReadyPoll : ℕ → Option HealthResponse :=
  fun _ => some { code := 200, statusHealthy := false, modelLoaded := false }

/-- A command oracle under which only the first docker command succeeds. -/
def failRunner : CommandOracle := fun c => c == "docker-compose down"

/-- A command oracle under which the docker build step fails. -/
def buildFailRunner : CommandOracle :=
  fun c => !(c == "docker-compose build --no-cache")

/-- Suite inputs where every probe request raises. -/
def noSuite : SuiteInputs :=
  { health := none, pred := none, metrics := none, web := fun _ => none }

/-- A health endpoint that never answers. -/
def noPoll : ℕ → Option HealthResponse := fun _ => none

/-- The ordered provisioning command sequence of the plan selected by
`deploy` for a deployment type (deploy.py lines 41-45 and 57-61). -/
def plan_commands (deployment_type : String) : List String :=
  if deployment_type == "docker" then docker_commands
  else if deployment_type == "k8s" then k8s_commands
  else []

/-! ## Helper lemmas -/

/-- The polling loop reports success exactly when one of the `fuel`
polls starting at index `start` has a 200 status. -/
lemma wait_loop_true_iff (poll : ℕ → Option HealthResponse) :
    ∀ (fuel start : ℕ), (wait_loop poll start fuel).1 = true ↔
      ∃ j, j < fuel ∧ codeHealthy (poll (start + j)) = true := by
  intro fuel
  induction fuel with
  | zero => intro start; simp [wait_loop]
  | succ n ih =>
    intro start
    unfold wait_loop
    cases hp : poll start with
    | some resp =>
      by_cases hc : resp.code == 200
      · simp only [hc, if_true]
        refine iff_of_true trivial ⟨0, Nat.succ_pos n, ?_⟩
        simp [codeHealthy, hp, hc]
      · simp only [hc, Bool.false_eq_true, if_false]
        show (wait_loop poll (start + 1) n).1 = true ↔ _
        rw [ih (start + 1)]
        constructor
        · rintro ⟨j, hj, hcj⟩
          refine ⟨j + 1, by omega, ?_⟩
          have harg : start + (j + 1) = start + 1 + j := by omega
          rw [harg]
          exact hcj
        · rintro ⟨j, hj, hcj⟩
          cases j with
          | zero =>
            rw [Nat.add_zero] at hcj
            simp [codeHealthy, hp, hc] at hcj
          | succ k =>
            refine ⟨k, by omega, ?_⟩
            have harg : start + 1 + k = start + (k + 1) := by omega
            rw [harg]
            exact hcj
    | none =>
      show (wait_loop poll (start + 1) n).1 = true ↔ _
      rw [ih (start + 1)]
      constructor
      · rintro ⟨j, hj, hcj⟩
        refine ⟨j + 1, by omega, ?_⟩
        have harg : start + (j + 1) = start + 1 + j := by omega
        rw [harg]
        exact hcj
      · rintro ⟨j, hj, hcj⟩
        cases j with
        | zero =>
          rw [Nat.add_zero] at hcj
          simp [codeHealthy, hp] at hcj
        | succ k =>
          refine ⟨k, by omega, ?_⟩
          have harg : start + 1 + k = start + (k + 1) := by omega
          rw [harg]
          exact hcj

/-- The polling loop never performs more polls than its budget. -/
lemma wait_loop_count_le (poll : ℕ → Option HealthResponse) :
    ∀ (fuel start : ℕ), (wait_loop poll start fuel).2 ≤ fuel := by
  intro fuel
  induction fuel with
  | zero => intro start; simp [wait_loop]
  | succ n ih =>
    intro start
    unfold wait_loop
    cases hp : poll start with
    | some resp =>
      by_cases hc : resp.code == 200
      · simp [hc]
      · simp only [hc, Bool.false_eq_true, if_false]
        show (wait_loop poll (start + 1) n).2 + 1 ≤ n + 1
        exact Nat.succ_le_succ (ih (start + 1))
    | none =>
      show (wait_loop poll (start + 1) n).2 + 1 ≤ n + 1
      exact Nat.succ_le_succ (ih (start + 1))

/-- The trace of the command loop is always a front prefix of the plan. -/
lemma run_commands_prefix (runner : CommandOracle) :
    ∀ plan : List String, ∃ k, (run_commands runner plan).1 = plan.take k := by
  intro plan
  induction plan with
  | nil => exact ⟨0, rfl⟩
  | cons c rest ih =>
    by_cases hc : runner c = true
    · obtain ⟨k, hk⟩ := ih
      exact ⟨k + 1, by simp [run_commands, hc, hk]⟩
    · exact ⟨1, by simp [run_commands, hc]⟩

/-- Every branch of `deploy` returns the provisioning-command trace of
the selected plan. -/
lemma deploy_trace (dtype : String) (runner : CommandOracle)
    (poll : ℕ → Option HealthResponse) (suite : SuiteInputs) (rt : Bool) :
    (deploy dtype runner poll suite rt).1 =
      (run_commands runner (plan_commands dtype)).1 := by
  unfold deploy plan_commands deploy_docker_compose deploy_kubernetes
  by_cases h1 : dtype == "docker"
  · simp only [h1, if_true]
    split
    · rfl
    · split
      · rfl
      · split <;> rfl
  · by_cases h2 : dtype == "k8s"
    · simp only [h1, h2, Bool.false_eq_true, if_false, if_true]
      split
      · rfl
      · split
        · rfl
        · split <;> rfl
    · simp [h1, h2, run_commands]

/-- Evaluation of the snapshot on `driftLog` with cutoff 50: one of the
two labeled records is recent and it is incorrect, so the recent-window
count is 1 while the recent accuracy is 0. -/
lemma gpm_driftLog : get_performance_metrics driftLog 50 = some
    { overall_accuracy := 50, total_predictions := 2,
      recent_accuracy_24h := 0, recent_predictions_24h := 1,
      average_confidence := some (17/20), confidence_min := some (4/5),
      confidence_max := some (9/10), class_accuracy := [("cat", 50)] } := by
  have hlab : labeledOf driftLog = driftLog := by
    simp [labeledOf, driftLog, truthyStr, oldEntry, newEntry]
  unfold get_performance_metrics
  rw [hlab]
  rw [if_neg (by simp [driftLog]), if_neg (by simp [driftLog])]
  have hcc : correctCount driftLog = 1 := by
    simp [correctCount, driftLog, oldEntry, newEntry]
  have hlen : driftLog.length = 2 := by simp [driftLog]
  have hrec : driftLog.filter (fun p => decide (50 < p.timestamp)) = [newEntry] := by
    simp [driftLog, oldEntry, newEntry]
  have hcc1 : correctCount [newEntry] = 0 := by
    simp [correctCount, newEntry]
  have hconfs : driftLog.filterMap (fun p => p.confidence) = [9/10, 8/10] := by
    simp [driftLog, oldEntry, newEntry]
  have hcls : driftLog.filter (fun p => p.actual_class.getD "" == "cat") = driftLog := by
    simp [driftLog, oldEntry, newEntry]
  have huniq : firstUniques (driftLog.map (fun p => p.actual_class.getD "")) = ["cat"] := by
    simp [firstUniques, driftLog, oldEntry, newEntry]
  rw [hrec, hcc, hlen, hconfs, huniq]
  simp only [List.map_cons, List.map_nil, hcls, hcc1]
  rw [hcc, hlen]
  norm_num [listMin, listMax]
  norm_num [min_def, max_def]
  simp

/-- Evaluation of the snapshot on the worked example: overall accuracy
200/3 percent, per-class 50 (cat) and 100 (dog). -/
lemma gpm_exampleLog : get_performance_metrics exampleLog 0 = some
    { overall_accuracy := 200/3, total_predictions := 3,
      recent_accuracy_24h := 200/3, recent_predictions_24h := 3,
      average_confidence := some (4/5), confidence_min := some (7/10),
      confidence_max := some (9/10),
      class_accuracy := [("cat", 50), ("dog", 100)] } := by
  have hlab : labeledOf exampleLog = exampleLog := by
    simp [labeledOf, exampleLog, truthyStr, exEntry1, exEntry2, exEntry3]
  unfold get_performance_metrics
  rw [hlab]
  rw [if_neg (by simp [exampleLog]), if_neg (by simp [exampleLog])]
  have hcc : correctCount exampleLog = 2 := by
    simp [correctCount, exampleLog, exEntry1, exEntry2, exEntry3]
  have hlen : exampleLog.length = 3 := by simp [exampleLog]
  have hrec : exampleLog.filter (fun p => decide (0 < p.timestamp)) = exampleLog := by
    simp [exampleLog, exEntry1, exEntry2, exEntry3]
  have hconfs : exampleLog.filterMap (fun p => p.confidence) = [9/10, 8/10, 7/10] := by
    simp [exampleLog, exEntry1, exEntry2, exEntry3]
  have hclscat : exampleLog.filter (fun p => p.actual_class.getD "" == "cat") =
      [exEntry1, exEntry2] := by
    simp [exampleLog, exEntry1, exEntry2, exEntry3]
  have hclsdog : exampleLog.filter (fun p => p.actual_class.getD "" == "dog") =
      [exEntry3] := by
    simp [exampleLog, exEntry1, exEntry2, exEntry3]
  have hcccat : correctCount [exEntry1, exEntry2] = 1 := by
    simp [correctCount, exEntry1, exEntry2]
  have hccdog : correctCount [exEntry3] = 1 := by
    simp [correctCount, exEntry3]
  have huniq : firstUniques (exampleLog.map (fun p => p.actual_class.getD "")) =
      ["cat", "dog"] := by
    simp [firstUniques, exampleLog, exEntry1, exEntry2, exEntry3]
  rw [hrec, hcc, hlen, hconfs, huniq]
  simp only [List.map_cons, List.map_nil, hclscat, hclsdog, hcccat, hccdog]
  rw [hcc, hlen]
  norm_num [listMin, listMax]
  norm_num [min_def, max_def]
  simp [exampleLog]

/-- Evaluation of the batch evaluator on the worked example: overall
accuracy 2/3, cat accuracy 1/2, dog accuracy 1. -/
lemma evalperf_example : evaluate_performance examplePreds exampleLabels 0 =
    Except.ok
    { overall_accuracy := 2/3, average_confidence := 4/5,
      total_predictions := 3, correct_predictions := 2,
      cat_accuracy := 1/2, dog_accuracy := 1,
      cat_correct := 1, dog_correct := 1, cat_total := 2, dog_total := 1,
      timestamp := 0 } := by
  unfold evaluate_performance
  rw [if_neg (by simp [examplePreds, exampleLabels])]
  simp only [examplePreds, exampleLabels]
  simp
  norm_num

/-- The failed counter computed by the counting loop equals the number
of FAIL results, for any starting accumulator. -/
lemma suite_foldl_failed (rs : List ProbeResult) :
    ∀ acc : ℕ × ℕ × ℕ, (rs.foldl suite_step acc).2.1 =
      acc.2.1 + (rs.filter (fun r => r.status == "FAIL")).length := by
  induction rs with
  | nil => intro acc; simp
  | cons r rest ih =>
    intro acc
    simp only [List.foldl_cons, List.filter_cons]
    by_cases hp : r.status = "PASS"
    · simp [suite_step, hp, ih]
    · by_cases hf : r.status = "FAIL"
      · rw [ih]
        simp [suite_step, hp, hf]
        omega
      · simp [suite_step, hp, hf, ih]

/-- The suite verdict is success exactly when no result is FAIL. -/
lemma suite_verdict_iff (rs : List ProbeResult) :
    suite_verdict rs = true ↔
      (rs.filter (fun r => r.status == "FAIL")).length = 0 := by
  unfold suite_verdict suite_counts
  rw [suite_foldl_failed]
  simp

/-- One auxiliary-service probe agrees with the spec-side status rule,
with "optional" meaning the MLflow name check of the source. -/
lemma monitoring_probe_spec (service_name : String) (r : Option ℕ) :
    ((monitoring_probe service_name r).name, (monitoring_probe service_name r).status) =
      (service_name, auxStatusSpec (service_name == "MLflow") r) := by
  cases r with
  | some code =>
    by_cases h : code == 200 <;> simp [monitoring_probe, auxStatusSpec, h]
  | none =>
    by_cases h : service_name == "MLflow" <;> simp [monitoring_probe, auxStatusSpec, h]

/-! ## Claims -/

/-- Claim C5 (confirmed): for every sequence of ProbeResults produced by
a SmokeTestSuite run, the overall suite result is Pass iff the count of
FAIL results is zero; SKIP results only increment the skipped counter
and never affect the verdict. -/
theorem smokeSuite_pass_iff_no_fail (inp : SuiteInputs) :
    run_all_tests inp = true ↔
      ((suite_results inp).filter (fun r => r.status == "FAIL")).length = 0 := by
  unfold run_all_tests
  exact suite_verdict_iff (suite_results inp)

/-- Claim C9 (confirmed): in the auxiliary-services probe, every service
of the fixed list gets PASS on a 200 response and FAIL on any other
status; an unreachable service gets SKIP when it is the optional MLflow
entry and FAIL otherwise. -/
theorem monitoring_probe_statuses (web : String → Option ℕ) :
    (test_monitoring_services web).1.map (fun r => (r.name, r.status)) =
      monitoring_services.map
        (fun su => (su.1, auxStatusSpec (su.1 == "MLflow") (web su.2))) := by
  simp only [test_monitoring_services, monitoring_services, List.map_cons, List.map_nil]
  rw [monitoring_probe_spec, monitoring_probe_spec, monitoring_probe_spec]

/-- Claim C7 (confirmed): `get_performance_metrics` on an empty log, or
on a log in which no record carries a (truthy) true label, returns the
empty snapshot `none`; the accuracy-ratio branches are unreachable in
that case. -/
theorem snapshot_unlabeled_none (log : List PredictionEntry) (recentCutoff : ℕ)
    (h : ∀ p ∈ log, truthyStr p.actual_class = false) :
    get_performance_metrics log recentCutoff = none := by
  unfold get_performance_metrics
  by_cases hlog : log = []
  · simp [hlog]
  · have hlab : labeledOf log = [] := by
      unfold labeledOf
      rw [List.filter_eq_nil_iff]
      intro p hp
      simp [h p hp]
    simp [hlog, hlab]

/-- Claim C7 witness: a nonempty log whose single record has no actual
label yields the empty snapshot. -/
theorem snapshot_unlabeled_none_witness :
    get_performance_metrics
      [{ timestamp := 3, image_path := "a.jpg", predicted_class := "cat",
         actual_class := none, confidence := some (1/2), correct := none }] 0 = none :=
  snapshot_unlabeled_none _ 0 (by decide)

/-- Claim C10 (confirmed): on the labeled predictions
(cat,cat,0.9), (dog,cat,0.8), (dog,dog,0.7) the monitor snapshot reports
overall accuracy 200/3 (= 100 * 2/3 on its percent scale) with per-class
accuracies 50 for cat and 100 for dog, and the evaluator summary reports
overall accuracy 2/3 with cat accuracy 1/2 and dog accuracy 1. -/
theorem example_accuracies :
    (get_performance_metrics exampleLog 0).map
        (fun m => (m.overall_accuracy, m.class_accuracy)) =
      some (200/3, [("cat", 50), ("dog", 100)]) ∧
    (evaluate_performance examplePreds exampleLabels 0).map
        (fun s => (s.overall_accuracy, s.cat_accuracy, s.dog_accuracy)) =
      Except.ok (2/3, 1/2, 1) := by
  rw [gpm_exampleLog, evalperf_example]
  exact ⟨rfl, rfl⟩

/-- Claim C1 (code bug): with one old correct labeled record and one
recent incorrect one, the recent-window count is 1 (not zero) and the
drift `overall - recent = 50 - 0 = 50` exceeds the threshold 5, so the
claim requires `true`; but `check_model_drift` tests
`recent_accuracy == 0` instead of the recent count and returns `false`. -/
theorem checkDrift_zero_recent_accuracy_bug :
    check_model_drift driftLog 50 5 = false ∧
    (get_performance_metrics driftLog 50).map
        (fun m => m.recent_predictions_24h) = some 1 ∧
    (get_performance_metrics driftLog 50).map
        (fun m => decide (m.overall_accuracy - m.recent_accuracy_24h > 5)) =
      some true := by
  refine ⟨?_, ?_, ?_⟩
  · unfold check_model_drift
    rw [gpm_driftLog]
    norm_num
  · rw [gpm_driftLog]
    rfl
  · rw [gpm_driftLog]
    norm_num

/-- Claim C3 (code bug): a call to `log_prediction` with no actual label
and no confidence does append exactly one record and rewrite the full
document, but then raises `TypeError` while formatting the `None`
confidence, instead of returning normally. -/
theorem logPrediction_none_confidence_bug :
    (∀ (log : List PredictionEntry) (now : ℕ) (ip pc : String)
        (ac : Option String) (cf : Option ℚ),
      (log_prediction log now ip pc ac cf).1.length = log.length + 1 ∧
      (log_prediction log now ip pc ac cf).2.1 =
        save_logs now (log_prediction log now ip pc ac cf).1) ∧
    (log_prediction [] 7 "img.jpg" "cat" none none).2.2 =
      Except.error "TypeError: unsupported format string passed to NoneType.__format__" := by
  constructor
  · intro log now ip pc ac cf
    cases cf <;> simp [log_prediction]
  · rfl

/-- Claim C6 (confirmed): when the number of predictions differs from
the number of loaded labels, `run_evaluation` propagates the
`ValueError` of `evaluate_performance` (the spec's DataError) and
produces no summary and persists nothing. -/
theorem evaluator_mismatch_raises (image_paths true_labels : List String)
    (predictions : List EvalPrediction) (now : ℕ) (save : Bool)
    (hpaths : image_paths ≠ []) (hlen : predictions.length ≠ true_labels.length) :
    run_evaluation image_paths true_labels predictions now save =
      RunOutcome.raised "Predictions and true labels length mismatch" := by
  unfold run_evaluation evaluate_performance
  simp [hpaths, hlen]

/-- Claim C6 witness: one loaded image and label but zero predictions
obtained gives the raised mismatch outcome. -/
theorem evaluator_mismatch_raises_witness :
    (["x.jpg"] : List String) ≠ [] ∧
    ([] : List EvalPrediction).length ≠ (["cat"] : List String).length ∧
    run_evaluation ["x.jpg"] ["cat"] [] 0 true =
      RunOutcome.raised "Predictions and true labels length mismatch" :=
  ⟨by decide, by decide,
    evaluator_mismatch_raises ["x.jpg"] ["cat"] [] 0 true (by decide) (by decide)⟩

/-- Claim C2 counterexample: a health endpoint that always returns
HTTP 200 with a body that does not assert the ready/loaded condition
makes `wait_for_deployment` succeed, although no poll is healthy in the
claim's sense (success status AND ready body). -/
theorem waitForHealthy_body_not_inspected_cex :
    (wait_for_deployment 300 bodyNotReadyPoll).1 = true ∧
    ((List.range 30).all (fun i => !(specHealthy (bodyNotReadyPoll i)))) = true := by
  exact ⟨rfl, by decide⟩

/-- Claim C2 (amended): `wait_for_deployment` returns true iff some poll
among the first `maxWait / 10` observes an HTTP 200 status — the
response body is never inspected; it performs at most `maxWait / 10`
polls, which is at most the claimed bound of ceiling maxWait/10
(30 at the default 300 s budget with the fixed 10 s interval). -/
theorem waitForHealthy_status_only (max_wait : ℕ)
    (poll : ℕ → Option HealthResponse) :
    ((wait_for_deployment max_wait poll).1 = true ↔
      ∃ i, i < max_wait / 10 ∧ codeHealthy (poll i) = true) ∧
    (wait_for_deployment max_wait poll).2 ≤ max_wait / 10 ∧
    max_wait / 10 ≤ (max_wait + 9) / 10 := by
  refine ⟨?_, wait_loop_count_le poll _ 0, Nat.div_le_div_right (by omega)⟩
  unfold wait_for_deployment
  rw [wait_loop_true_iff poll (max_wait / 10) 0]
  simp only [Nat.zero_add]

/-- Claim C4 (confirmed): for every plan, if the commands before index
`i` succeed and the command at index `i` fails, then the command loop
executes exactly the first `i+1` commands of the plan, in order, and
returns the failure outcome at that step; commands after index `i` are
never executed. -/
theorem deploy_plan_first_failure_aborts (runner : CommandOracle)
    (plan : List String) (i : ℕ) (h : i < plan.length)
    (hpre : (plan.take i).all runner = true)
    (hfail : runner (plan.get ⟨i, h⟩) = false) :
    run_commands runner plan = (plan.take (i + 1), false) := by
  induction plan generalizing i with
  | nil => exact absurd h (by simp)
  | cons c rest ih =>
    cases i with
    | zero =>
      have hc : runner c = false := hfail
      simp [run_commands, hc]
    | succ n =>
      rw [List.take_succ_cons, List.all_cons, Bool.and_eq_true] at hpre
      have hrest := ih n (Nat.lt_of_succ_lt_succ h) hpre.2 hfail
      simp [run_commands, hpre.1, hrest]

/-- Claim C4 witness: under an oracle where only `docker-compose down`
succeeds, the docker plan stops right after its second command. -/
theorem deploy_plan_first_failure_aborts_witness :
    (docker_commands.take 1).all failRunner = true ∧
    failRunner (docker_commands.get ⟨1, by decide⟩) = false ∧
    run_commands failRunner docker_commands = (docker_commands.take 2, false) :=
  ⟨by decide, by decide,
    deploy_plan_first_failure_aborts failRunner docker_commands 1
      (by decide) (by decide) (by decide)⟩

/-- Claim C8 counterexample: for the docker plan, the teardown command
`docker-compose down` is also the plan's first provisioning command, so
it does get executed on a failure path of `deploy` (here the build step
fails after the teardown-named first step already ran). -/
theorem deploy_failure_trace_contains_teardown_cex :
    (deploy "docker" buildFailRunner noPoll noSuite true).2 = false ∧
    "docker-compose down" ∈ (deploy "docker" buildFailRunner noPoll noSuite true).1 ∧
    rollback "docker" = ["docker-compose down"] := by
  refine ⟨by decide, by decide, rfl⟩

/-- Claim C8 (amended): `deploy` only ever executes a front prefix of
the selected plan's provisioning commands — it runs nothing in response
to a failure, and never invokes the rollback action; the k8s teardown
command never appears in any deploy trace (the docker teardown command
string coincides with the docker plan's planned first provisioning
step); `rollback` is an independent entry point that executes exactly
the plan's teardown command. -/
theorem deploy_no_rollback_on_failure (dtype : String) (runner : CommandOracle)
    (poll : ℕ → Option HealthResponse) (suite : SuiteInputs) (rt : Bool) :
    (∃ k, (deploy dtype runner poll suite rt).1 = (plan_commands dtype).take k) ∧
    "kubectl rollout undo deployment/cats-dogs-inference" ∉
      (deploy dtype runner poll suite rt).1 ∧
    rollback "docker" = ["docker-compose down"] ∧
    rollback "k8s" = ["kubectl rollout undo deployment/cats-dogs-inference"] := by
  obtain ⟨k, hk⟩ := run_commands_prefix runner (plan_commands dtype)
  have htr := deploy_trace dtype runner poll suite rt
  refine ⟨⟨k, by rw [htr, hk]⟩, ?_, rfl, rfl⟩
  rw [htr, hk]
  intro hmem
  have hmem2 : "kubectl rollout undo deployment/cats-dogs-inference" ∈
      plan_commands dtype := List.take_subset k (plan_commands dtype) hmem
  unfold plan_commands at hmem2
  by_cases h1 : dtype == "docker"
  · simp [h1, docker_commands] at hmem2
  · by_cases h2 : dtype == "k8s"
    · simp [h1, h2, k8s_commands] at hmem2
    · simp [h1, h2] at hmem2

end MLOps
